import Mathlib

/-!
Verification development for the IoT environmental-sensing node
(`src/mqtt_script/mqtt_script.ino` and `src/http_script/http_script.ino`).

The embedding models the byte stream consumed by `readPMSdata` as a
`List Nat` of the bytes currently available on the serial port (each value
is a `uint8`, hence `< 256`).  `Stream::peek` looks at the head,
`Stream::read` consumes the head, `Stream::available` is the list length,
and `Stream::readBytes(buf, 30)` consumes `take 30` / leaves `drop 30`.

Machine integers are modelled as `Nat` with explicit `% 2^16` where the C
code uses `uint16_t` accumulation.  The C `float` math helpers
(`dewPoint`, `computeHeatIndex`, `computeAQI_PM25_US`) are modelled over
`ℚ` with exact arithmetic; `roundf` (round half away from zero) agrees
with Mathlib `round` (round half up) on the nonnegative values produced
here, and all values fed to `roundf` by this code are nonnegative.
-/

/-- The `pms5003data` struct of both sketches: fifteen `uint16_t` fields in
declaration order.  `memcpy((void*)&out, (void*)frame_u16, 30)` fills the
fields from `frame_u16[0..14]` in this order. -/
structure Pms5003data where
  framelen : Nat
  pm10_standard : Nat
  pm25_standard : Nat
  pm100_standard : Nat
  pm10_env : Nat
  pm25_env : Nat
  pm100_env : Nat
  particles_03um : Nat
  particles_05um : Nat
  particles_10um : Nat
  particles_25um : Nat
  particles_50um : Nat
  particles_100um : Nat
  unused : Nat
  checksum : Nat
deriving Repr, DecidableEq

/-- One big-endian 16-bit field of the decode loop
`frame_u16[i] = ((uint16_t)buffer[2 + i*2] << 8) | buffer[2 + i*2 + 1]`,
with the array access checked: `none` when an index is outside the
30-byte `buffer` (the C code has no such check; reaching `none` models an
out-of-bounds read, which is undefined behavior in C). -/
def beAt (buffer : List Nat) (i : Nat) : Option Nat :=
  match buffer.get? (2 + i * 2), buffer.get? (2 + i * 2 + 1) with
  | some hi, some lo => some (hi * 256 + lo)
  | _, _ => none

/-- The field-decoding loop `for (i = 0; i < 15; i++)` followed by the
`memcpy` into the struct: all fifteen big-endian fields, or `none` if any
buffer access is out of range. -/
def decodeFrame (buffer : List Nat) : Option Pms5003data := do
  let f0 ← beAt buffer 0
  let f1 ← beAt buffer 1
  let f2 ← beAt buffer 2
  let f3 ← beAt buffer 3
  let f4 ← beAt buffer 4
  let f5 ← beAt buffer 5
  let f6 ← beAt buffer 6
  let f7 ← beAt buffer 7
  let f8 ← beAt buffer 8
  let f9 ← beAt buffer 9
  let f10 ← beAt buffer 10
  let f11 ← beAt buffer 11
  let f12 ← beAt buffer 12
  let f13 ← beAt buffer 13
  let f14 ← beAt buffer 14
  pure ⟨f0, f1, f2, f3, f4, f5, f6, f7, f8, f9, f10, f11, f12, f13, f14⟩

/-- The checksum accumulation of `readPMSdata`:
`uint16_t sum = h + m; for (i = 0; i < 28; i++) sum += buffer[i];`.
`uint16_t` arithmetic is modelled by a final `% 2^16` (the sum of two
header bytes and 28 body bytes never exceeds `2^16` anyway). -/
def pmsSum (h m : Nat) (buffer : List Nat) : Nat :=
  (h + m + ((buffer.take 28).foldl (fun acc b => acc + b) 0)) % 65536

/-- Result of one call to `readPMSdata`: `ret flag out rest` is a `return
flag` with the caller's `out` record holding `out` and `rest` the bytes
still unconsumed on the stream; `oob rest` marks that the decode loop
performed an out-of-bounds read of `buffer` (undefined behavior in C). -/
inductive PmsOutcome where
  | ret (flag : Bool) (out : Pms5003data) (rest : List Nat)
  | oob (rest : List Nat)
deriving Repr, DecidableEq

/-- The `while (s->available() >= 32)` loop of `readPMSdata`
(`src/mqtt_script/mqtt_script.ino` lines 137-159).  `fuel` bounds the
number of iterations; every iteration consumes at least one byte, so
`fuel = s.length` is always enough (see `readPMSloop_fuel_congr`).
The branch structure follows the C code line by line:
peek ≠ 0x42 consumes one byte and continues; after consuming the 0x42,
a peek ≠ 0x4D continues WITHOUT consuming that byte; on a full marker the
next 30 bytes are taken as the body, decoded, copied into `out`, and the
computed sum is compared against the decoded `checksum` field. -/
def readPMSloop : Nat → List Nat → Pms5003data → PmsOutcome
  | 0, s, out => PmsOutcome.ret false out s
  | fuel+1, s, out =>
    if 32 ≤ s.length then
      match s with
      | [] => PmsOutcome.ret false out s
      | b :: rest =>
        if b = 0x42 then
          match rest with
          | [] => PmsOutcome.ret false out (b :: rest)
          | b2 :: rest2 =>
            if b2 = 0x4D then
              match decodeFrame (rest2.take 30) with
              | none => PmsOutcome.oob (rest2.drop 30)
              | some d =>
                if pmsSum 0x42 0x4D (rest2.take 30) = d.checksum then
                  PmsOutcome.ret true d (rest2.drop 30)
                else
                  readPMSloop fuel (rest2.drop 30) d
            else
              readPMSloop fuel rest out
        else
          readPMSloop fuel rest out
    else PmsOutcome.ret false out s

/-- `bool readPMSdata(Stream *s, pms5003data &out)` of
`src/mqtt_script/mqtt_script.ino` lines 134-161.  The initial
`if (!s->available()) return false;` coincides with the loop exiting
immediately on an empty stream. -/
def readPMSdata (s : List Nat) (out : Pms5003data) : PmsOutcome :=
  readPMSloop s.length s out

/-- A default prior record used as the caller's `data` global in concrete
evaluations. -/
def priorRecord : Pms5003data :=
  ⟨1, 2, 3, 4, 5, 6, 7, 8, 9, 10, 11, 12, 13, 14, 15⟩

/-- A 30-byte frame body that is well formed per the PMS5003 protocol and
the spec: field `i` at body offsets `2*i, 2*i+1` (big endian), pm2.5
standard = 35, and the transmitted checksum at offsets 28,29 equal to
`0x42 + 0x4D + sum of body bytes 0..27 = 256`, i.e. bytes `[1, 0]`. -/
def goodBody : List Nat :=
  [0, 28, 0, 10, 0, 35, 0, 40] ++ List.replicate 20 0 ++ [1, 0]

/-- The same body with the transmitted checksum bytes corrupted to
`[9, 9]` (transmitted value 2313 ≠ computed sum 256). -/
def corruptBody : List Nat :=
  [0, 28, 0, 10, 0, 35, 0, 40] ++ List.replicate 20 0 ++ [9, 9]

example : goodBody.length = 30 := by decide
example : corruptBody.length = 30 := by decide

/-! ### Machine-level model of the decode loop

The strict model above reports the out-of-bounds accesses `buffer[30]`
and `buffer[31]` (for `i = 14`) as `PmsOutcome.oob`.  On the actual
machine those reads return whatever two bytes sit past the 30-byte stack
array; the extended model makes them explicit parameters `g30 g31`, so
the behaviour of the compiled code on a concrete run is the extended
model at some (unknown) `g30 g31`.  Note that the `memcpy` into `out`
happens BEFORE the checksum comparison, so `out` is overwritten even
when the comparison fails. -/

/-- Big-endian field extraction of the decode loop with the two bytes
past the 30-byte buffer modelled as `g30, g31`. -/
def beAtExt (buffer : List Nat) (g30 g31 : Nat) (i : Nat) : Nat :=
  (buffer ++ [g30, g31]).getD (2 + i * 2) 0 * 256
    + (buffer ++ [g30, g31]).getD (2 + i * 2 + 1) 0

/-- The full field decode of the extended model (always succeeds; field
14, the struct `checksum` slot, receives the two out-of-bounds bytes). -/
def decodeFrameExt (buffer : List Nat) (g30 g31 : Nat) : Pms5003data :=
  ⟨beAtExt buffer g30 g31 0, beAtExt buffer g30 g31 1, beAtExt buffer g30 g31 2,
   beAtExt buffer g30 g31 3, beAtExt buffer g30 g31 4, beAtExt buffer g30 g31 5,
   beAtExt buffer g30 g31 6, beAtExt buffer g30 g31 7, beAtExt buffer g30 g31 8,
   beAtExt buffer g30 g31 9, beAtExt buffer g30 g31 10, beAtExt buffer g30 g31 11,
   beAtExt buffer g30 g31 12, beAtExt buffer g30 g31 13, beAtExt buffer g30 g31 14⟩

/-- The scan loop of `readPMSdata` in the extended model.  Result is
`(returned flag, final value of the caller's out record, unconsumed
bytes)`.  The `else readPMSloopExt ... d` branch reflects that the
`memcpy` already replaced `out` by `d` when the checksum test fails and
the loop continues. -/
def readPMSloopExt (g30 g31 : Nat) : Nat → List Nat → Pms5003data → Bool × Pms5003data × List Nat
  | 0, s, out => (false, out, s)
  | fuel+1, s, out =>
    if 32 ≤ s.length then
      match s with
      | [] => (false, out, s)
      | b :: rest =>
        if b = 0x42 then
          match rest with
          | [] => (false, out, b :: rest)
          | b2 :: rest2 =>
            if b2 = 0x4D then
              let d := decodeFrameExt (rest2.take 30) g30 g31
              if pmsSum 0x42 0x4D (rest2.take 30) = d.checksum then
                (true, d, rest2.drop 30)
              else
                readPMSloopExt g30 g31 fuel (rest2.drop 30) d
            else
              readPMSloopExt g30 g31 fuel rest out
        else
          readPMSloopExt g30 g31 fuel rest out
    else (false, out, s)

/-- `readPMSdata` in the extended (machine-level) model. -/
def readPMSdataExt (g30 g31 : Nat) (s : List Nat) (out : Pms5003data) : Bool × Pms5003data × List Nat :=
  readPMSloopExt g30 g31 s.length s out

/-! ### Publish-side logic of `sendToAWS` / `sendToServer` -/

/-- The published pm2.5 field of `sendToAWS`
(`doc["pm2_5_ugm3"] = pmsSuccess ? data.pm25_standard : 0;`,
`src/mqtt_script/mqtt_script.ino` line 244). -/
def publishedPM25 (pmsSuccess : Bool) (d : Pms5003data) : Nat :=
  if pmsSuccess then d.pm25_standard else 0

/-- The DHT-related state of the node: the globals `lastTempC`,
`lastHumid` (a C `float` that is either NaN or a valid sample, modelled
as `Option ℚ` with `none` for NaN) and `lastDhtReadTime` (milliseconds). -/
structure DhtState where
  lastTempC : Option ℚ
  lastHumid : Option ℚ
  lastDhtReadTime : Nat
deriving Repr, DecidableEq

/-- The DHT refresh step at the top of `sendToAWS`
(`src/mqtt_script/mqtt_script.ino` lines 211-216; identically
`sendToServer` in `src/http_script/http_script.ino` lines 181-186):
when the minimum interval has elapsed or a stored sample is NaN, both
stored samples are overwritten by the fresh read results `rT, rH`
(which are themselves NaN, i.e. `none`, when the read fails) and the
read time is updated; otherwise the state is untouched.  `now`
subtraction is `Nat` subtraction, matching the unsigned `millis()`
arithmetic for monotone times. -/
def dhtRefresh (st : DhtState) (now : Nat) (rT rH : Option ℚ) : DhtState :=
  if 2200 ≤ now - st.lastDhtReadTime ∨ st.lastTempC = none ∨ st.lastHumid = none then
    ⟨rT, rH, now⟩
  else st

/-- Whether the cycle emits its record: `sendToAWS` returns early
("DHT11 Error - skipping publish.") exactly when a stored sample is NaN
after the refresh step (`src/mqtt_script/mqtt_script.ino` lines 221-224;
`src/http_script/http_script.ino` line 191 returns silently). -/
def cycleEmits (st : DhtState) : Bool :=
  st.lastTempC.isSome && st.lastHumid.isSome

/-! ### Math helpers of `mqtt_script.ino` (lines 164-205), modelled over `ℚ` -/

/-- `float dewPoint(float tempC, float humidity)`:
`tempC - ((100.0f - humidity) / 5.0f)`. -/
def dewPoint (tempC humidity : ℚ) : ℚ :=
  tempC - (100 - humidity) / 5

/-- `float computeHeatIndex(float tempC, float humidity)`: the NOAA
regression polynomial over the Fahrenheit temperature, converted back to
Celsius. -/
def computeHeatIndex (tempC humidity : ℚ) : ℚ :=
  let T := tempC * 9 / 5 + 32
  let R := humidity
  let hiF := -42.379 + 2.04901523 * T + 10.14333127 * R
             - 0.22475541 * T * R - 6.83783e-3 * T * T
             - 5.481717e-2 * R * R
             + 1.22874e-3 * T * T * R
             + 8.5282e-4 * T * R * R
             - 1.99e-6 * T * T * R * R
  (hiF - 32) * 5 / 9

/-- One band of `computeAQI_PM25_US`:
`(int)roundf(((r.Ihigh - r.Ilow) * (C - r.Clow) / (r.Chigh - r.Clow)) + r.Ilow)`.
All values this code feeds to `roundf` are nonnegative, where `roundf`
(half away from zero) coincides with Mathlib `round` (half up). -/
def interpAQI (Clow Chigh : ℚ) (Ilow Ihigh : ℤ) (C : ℚ) : ℤ :=
  round (((Ihigh : ℚ) - (Ilow : ℚ)) * (C - Clow) / (Chigh - Clow) + (Ilow : ℚ))

/-- `int computeAQI_PM25_US(float C)` (`src/mqtt_script/mqtt_script.ino`
lines 180-196): iterate the seven-band table in order and return the
interpolation of the FIRST band whose `Chigh` is `≥ C`; past the last
band return 500. -/
def computeAQI_PM25_US (C : ℚ) : ℤ :=
  if C ≤ 12 then interpAQI 0 12 0 50 C
  else if C ≤ 35.4 then interpAQI 12.1 35.4 51 100 C
  else if C ≤ 55.4 then interpAQI 35.5 55.4 101 150 C
  else if C ≤ 150.4 then interpAQI 55.5 150.4 151 200 C
  else if C ≤ 250.4 then interpAQI 150.5 250.4 201 300 C
  else if C ≤ 350.4 then interpAQI 250.5 350.4 301 400 C
  else if C ≤ 500.4 then interpAQI 350.5 500.4 401 500 C
  else 500

/-- `String getAQICategory(int aqi)` (`src/mqtt_script/mqtt_script.ino`
lines 198-205). -/
def getAQICategory (aqi : ℤ) : String :=
  if aqi ≤ 50 then "Good"
  else if aqi ≤ 100 then "Moderate"
  else if aqi ≤ 150 then "Unhealthy for Sensitive Groups"
  else if aqi ≤ 200 then "Unhealthy"
  else if aqi ≤ 300 then "Very Unhealthy"
  else "Hazardous"

/-- The US EPA PM2.5 breakpoint table exactly as the claim lists it:
`(Clow, Chigh, Ilow, Ihigh)` rows. -/
def aqiTable : List (ℚ × ℚ × ℤ × ℤ) :=
  [(0, 12, 0, 50), (12.1, 35.4, 51, 100), (35.5, 55.4, 101, 150),
   (55.5, 150.4, 151, 200), (150.5, 250.4, 201, 300),
   (250.5, 350.4, 301, 400), (350.5, 500.4, 401, 500)]

/-- The breakpoint mapping as the claim words it: the FIRST band of the
table with `C ≤ Chigh` determines the result as
`(Ihigh - Ilow) / (Chigh - Clow) * (C - Clow) + Ilow` rounded to the
nearest integer, and any `C` past every band yields 500. -/
def aqiSpecMap (C : ℚ) : ℤ :=
  match aqiTable.find? (fun r => decide (C ≤ r.2.1)) with
  | some (Clow, Chigh, Ilow, Ihigh) =>
      round (((Ihigh : ℚ) - (Ilow : ℚ)) / (Chigh - Clow) * (C - Clow) + (Ilow : ℚ))
  | none => 500

/-- The exact rational value whose rounding `computeAQI_PM25_US`
returns: the same band selection, without the final rounding (the `else`
branch returns the integer 500 directly, whose rounding is itself). -/
def aqiRaw (C : ℚ) : ℚ :=
  if C ≤ 12 then (50 - 0) * (C - 0) / (12 - 0) + 0
  else if C ≤ 35.4 then (100 - 51) * (C - 12.1) / (35.4 - 12.1) + 51
  else if C ≤ 55.4 then (150 - 101) * (C - 35.5) / (55.4 - 35.5) + 101
  else if C ≤ 150.4 then (200 - 151) * (C - 55.5) / (150.4 - 55.5) + 151
  else if C ≤ 250.4 then (300 - 201) * (C - 150.5) / (250.4 - 150.5) + 201
  else if C ≤ 350.4 then (400 - 301) * (C - 250.5) / (350.4 - 250.5) + 301
  else if C ≤ 500.4 then (500 - 401) * (C - 350.5) / (500.4 - 350.5) + 401
  else 500

/-! ### ActuationController

No actuator, indicator, command or threshold code exists under `src/`;
the following definitions are modelled from the spec (§3, §4.3). -/

/-- Modelled from the spec: the `On`/`Off` payload of an override
command (ActuationController is absent from `src/`). -/
inductive OverrideState where
  | on
  | off
deriving Repr, DecidableEq

/-- Modelled from the spec: `ControlMode` is `Auto` or
`Override(state)` (ActuationController is absent from `src/`). -/
inductive ControlMode where
  | auto
  | override (st : OverrideState)
deriving Repr, DecidableEq

/-- Modelled from the spec: the hazard predicate
`hazard = (aqiIndex > 150) OR (co2_ppm exceeds configured threshold)`
(ActuationController is absent from `src/`). -/
def hazardPred (aqiIndex : ℤ) (co2ppm threshold : ℚ) : Bool :=
  decide (150 < aqiIndex) || decide (threshold < co2ppm)

/-- Modelled from the spec: `ActuatorCommand` is
`{buzzer, redIndicator, greenIndicator}` (ActuationController is absent
from `src/`). -/
structure ActuatorCommand where
  buzzer : Bool
  redIndicator : Bool
  greenIndicator : Bool
deriving Repr, DecidableEq

/-- Modelled from the spec: the output policy table of §4.3 — in `Auto`
the buzzer follows the hazard, overrides force it, and the indicators
always track the hazard (ActuationController is absent from `src/`). -/
def actuatorOutput (mode : ControlMode) (hazard : Bool) : ActuatorCommand :=
  match mode with
  | ControlMode.auto => ⟨hazard, hazard, !hazard⟩
  | ControlMode.override OverrideState.on => ⟨true, hazard, !hazard⟩
  | ControlMode.override OverrideState.off => ⟨false, hazard, !hazard⟩

/-! ### The HTTPS variant (`src/http_script/http_script.ino`)

`readPMSdata` (lines 56-83), `dewPoint` (86-88), `computeHeatIndex`
(90-100), `computeAQI_PM25_US` (102-118) and `getAQICategory` (120-127)
of the HTTPS sketch, embedded separately under the `Http` namespace.
The `pms5003data` struct declaration is byte-for-byte the same in both
sketches, so the `Pms5003data` type and the `PmsOutcome` outcome type
are shared. -/

namespace Http

/-- The big-endian field extraction of the HTTPS `readPMSdata` decode
loop, with out-of-range accesses reported as `none`. -/
def beAt (buffer : List Nat) (i : Nat) : Option Nat :=
  match buffer.get? (2 + i * 2), buffer.get? (2 + i * 2 + 1) with
  | some hi, some lo => some (hi * 256 + lo)
  | _, _ => none

/-- The field-decoding loop and `memcpy` of the HTTPS `readPMSdata`. -/
def decodeFrame (buffer : List Nat) : Option Pms5003data := do
  let f0 ← Http.beAt buffer 0
  let f1 ← Http.beAt buffer 1
  let f2 ← Http.beAt buffer 2
  let f3 ← Http.beAt buffer 3
  let f4 ← Http.beAt buffer 4
  let f5 ← Http.beAt buffer 5
  let f6 ← Http.beAt buffer 6
  let f7 ← Http.beAt buffer 7
  let f8 ← Http.beAt buffer 8
  let f9 ← Http.beAt buffer 9
  let f10 ← Http.beAt buffer 10
  let f11 ← Http.beAt buffer 11
  let f12 ← Http.beAt buffer 12
  let f13 ← Http.beAt buffer 13
  let f14 ← Http.beAt buffer 14
  pure ⟨f0, f1, f2, f3, f4, f5, f6, f7, f8, f9, f10, f11, f12, f13, f14⟩

/-- The checksum accumulation of the HTTPS `readPMSdata`. -/
def pmsSum (h m : Nat) (buffer : List Nat) : Nat :=
  (h + m + ((buffer.take 28).foldl (fun acc b => acc + b) 0)) % 65536

/-- The scan loop of the HTTPS `readPMSdata`
(`src/http_script/http_script.ino` lines 59-81). -/
def readPMSloop : Nat → List Nat → Pms5003data → PmsOutcome
  | 0, s, out => PmsOutcome.ret false out s
  | fuel+1, s, out =>
    if 32 ≤ s.length then
      match s with
      | [] => PmsOutcome.ret false out s
      | b :: rest =>
        if b = 0x42 then
          match rest with
          | [] => PmsOutcome.ret false out (b :: rest)
          | b2 :: rest2 =>
            if b2 = 0x4D then
              match Http.decodeFrame (rest2.take 30) with
              | none => PmsOutcome.oob (rest2.drop 30)
              | some d =>
                if Http.pmsSum 0x42 0x4D (rest2.take 30) = d.checksum then
                  PmsOutcome.ret true d (rest2.drop 30)
                else
                  Http.readPMSloop fuel (rest2.drop 30) d
            else
              Http.readPMSloop fuel rest out
        else
          Http.readPMSloop fuel rest out
    else PmsOutcome.ret false out s

/-- `bool readPMSdata(Stream *s, pms5003data &out)` of
`src/http_script/http_script.ino` lines 56-83. -/
def readPMSdata (s : List Nat) (out : Pms5003data) : PmsOutcome :=
  Http.readPMSloop s.length s out

/-- `float dewPoint(float tempC, float humidity)` of the HTTPS sketch. -/
def dewPoint (tempC humidity : ℚ) : ℚ :=
  tempC - (100 - humidity) / 5

/-- `float computeHeatIndex(float tempC, float humidity)` of the HTTPS
sketch. -/
def computeHeatIndex (tempC humidity : ℚ) : ℚ :=
  let T := tempC * 9 / 5 + 32
  let R := humidity
  let hiF := -42.379 + 2.04901523 * T + 10.14333127 * R
             - 0.22475541 * T * R - 6.83783e-3 * T * T
             - 5.481717e-2 * R * R
             + 1.22874e-3 * T * T * R
             + 8.5282e-4 * T * R * R
             - 1.99e-6 * T * T * R * R
  (hiF - 32) * 5 / 9

/-- One band interpolation of the HTTPS `computeAQI_PM25_US`. -/
def interpAQI (Clow Chigh : ℚ) (Ilow Ihigh : ℤ) (C : ℚ) : ℤ :=
  round (((Ihigh : ℚ) - (Ilow : ℚ)) * (C - Clow) / (Chigh - Clow) + (Ilow : ℚ))

/-- `int computeAQI_PM25_US(float C)` of
`src/http_script/http_script.ino` lines 102-118. -/
def computeAQI_PM25_US (C : ℚ) : ℤ :=
  if C ≤ 12 then Http.interpAQI 0 12 0 50 C
  else if C ≤ 35.4 then Http.interpAQI 12.1 35.4 51 100 C
  else if C ≤ 55.4 then Http.interpAQI 35.5 55.4 101 150 C
  else if C ≤ 150.4 then Http.interpAQI 55.5 150.4 151 200 C
  else if C ≤ 250.4 then Http.interpAQI 150.5 250.4 201 300 C
  else if C ≤ 350.4 then Http.interpAQI 250.5 350.4 301 400 C
  else if C ≤ 500.4 then Http.interpAQI 350.5 500.4 401 500 C
  else 500

/-- `String getAQICategory(int aqi)` of `src/http_script/http_script.ino`
lines 120-127. -/
def getAQICategory (aqi : ℤ) : String :=
  if aqi ≤ 50 then "Good"
  else if aqi ≤ 100 then "Moderate"
  else if aqi ≤ 150 then "Unhealthy for Sensitive Groups"
  else if aqi ≤ 200 then "Unhealthy"
  else if aqi ≤ 300 then "Very Unhealthy"
  else "Hazardous"

end Http

/-! ### Helper lemmas about the scan loop -/

lemma readPMSloop_small (s : List Nat) (out : Pms5003data) (h32 : ¬ 32 ≤ s.length) :
    ∀ fuel, readPMSloop fuel s out = PmsOutcome.ret false out s := by
  intro fuel
  cases fuel with
  | zero => rfl
  | succ f => simp [readPMSloop, h32]

lemma readPMSloop_step_skip (f : Nat) (b : Nat) (rest : List Nat) (out : Pms5003data)
    (h32 : 32 ≤ (b :: rest).length) (hb : b ≠ 0x42) :
    readPMSloop (f+1) (b :: rest) out = readPMSloop f rest out := by
  have h31 : 31 ≤ rest.length := by simpa using h32
  simp [readPMSloop, h32, hb, Nat.not_lt.mpr h31]

lemma readPMSloop_step_nomark (f : Nat) (b2 : Nat) (rest2 : List Nat) (out : Pms5003data)
    (h32 : 32 ≤ (0x42 :: b2 :: rest2).length) (hb2 : b2 ≠ 0x4D) :
    readPMSloop (f+1) (0x42 :: b2 :: rest2) out = readPMSloop f (b2 :: rest2) out := by
  have h30 : 30 ≤ rest2.length := by simpa using h32
  simp [readPMSloop, h32, hb2, Nat.not_lt.mpr h30]

lemma readPMSloop_step_frame (f : Nat) (rest2 : List Nat) (out : Pms5003data)
    (h32 : 32 ≤ (0x42 :: 0x4D :: rest2).length) :
    readPMSloop (f+1) (0x42 :: 0x4D :: rest2) out =
      match decodeFrame (rest2.take 30) with
      | none => PmsOutcome.oob (rest2.drop 30)
      | some d =>
        if pmsSum 0x42 0x4D (rest2.take 30) = d.checksum then
          PmsOutcome.ret true d (rest2.drop 30)
        else
          readPMSloop f (rest2.drop 30) d := by
  have h30 : 30 ≤ rest2.length := by simpa using h32
  simp [readPMSloop, h32, Nat.not_lt.mpr h30]

lemma readPMSloop_fuel_congr :
    ∀ n s out fuel, s.length ≤ n → s.length ≤ fuel →
      readPMSloop fuel s out = readPMSloop s.length s out := by
  intro n
  induction n with
  | zero =>
    intro s out fuel hn _
    have hs : s = [] := List.eq_nil_of_length_eq_zero (Nat.le_zero.mp hn)
    subst hs
    cases fuel with
    | zero => rfl
    | succ f => simp [readPMSloop]
  | succ n ih =>
    intro s out fuel hn hf
    by_cases h32 : 32 ≤ s.length
    · obtain ⟨f, rfl⟩ : ∃ f, fuel = f + 1 := by
        cases fuel with
        | zero => omega
        | succ f => exact ⟨f, rfl⟩
      cases s with
      | nil => simp at h32
      | cons b rest =>
        rw [List.length_cons]
        by_cases hb : b = 0x42
        · subst hb
          cases rest with
          | nil => simp at h32
          | cons b2 rest2 =>
            by_cases hb2 : b2 = 0x4D
            · subst hb2
              rw [readPMSloop_step_frame f rest2 out h32]
              rw [show (0x4D :: rest2).length + 1 = rest2.length + 2 by simp]
              rw [readPMSloop_step_frame (rest2.length + 1) rest2 out h32]
              cases hd : decodeFrame (rest2.take 30) with
              | none => rfl
              | some d =>
                by_cases hck : pmsSum 0x42 0x4D (rest2.take 30) = d.checksum
                · simp [hck]
                · simp only [hck, if_false, ite_false]
                  have hdl : (rest2.drop 30).length = rest2.length - 30 :=
                    List.length_drop 30 rest2
                  have hsl : (0x42 :: 0x4D :: rest2).length = rest2.length + 2 := by simp
                  rw [ih (rest2.drop 30) d f (by omega) (by omega),
                      ih (rest2.drop 30) d (rest2.length + 1) (by omega) (by omega)]
            · rw [readPMSloop_step_nomark f b2 rest2 out h32 hb2]
              rw [readPMSloop_step_nomark (b2 :: rest2).length b2 rest2 out h32 hb2]
              exact ih (b2 :: rest2) out f (by simp at hn ⊢; omega) (by simp at hf ⊢; omega)
        · rw [readPMSloop_step_skip f b rest out h32 hb]
          rw [readPMSloop_step_skip rest.length b rest out h32 hb]
          have hsl : (b :: rest).length = rest.length + 1 := by simp
          exact ih rest out f (by omega) (by omega)
    · rw [readPMSloop_small s out h32 fuel, readPMSloop_small s out h32 s.length]

/-- No 0x42 immediately followed by 0x4D with a full 30-byte body
available after the pair: the head pair is checked together with the
availability of the body, then the check recurses one position on. -/
def noFullMarkerPair : List Nat → Bool
  | a :: b :: t => !(a = 0x42 && b = 0x4D && 30 ≤ t.length) && noFullMarkerPair (b :: t)
  | _ => true

lemma noFullMarkerPair_tail {a : Nat} {t : List Nat}
    (h : noFullMarkerPair (a :: t) = true) : noFullMarkerPair t = true := by
  cases t with
  | nil => rfl
  | cons b t2 =>
    simp only [noFullMarkerPair, Bool.and_eq_true] at h
    exact h.2

lemma nmp_loop (n : Nat) : ∀ s out fuel, s.length ≤ n → s.length ≤ fuel →
    noFullMarkerPair s = true →
    ∃ rest, readPMSloop fuel s out = PmsOutcome.ret false out rest := by
  induction n with
  | zero =>
    intro s out fuel hn _ _
    have hs : s = [] := List.eq_nil_of_length_eq_zero (Nat.le_zero.mp hn)
    subst hs
    exact ⟨[], readPMSloop_small [] out (by simp) fuel⟩
  | succ n ih =>
    intro s out fuel hn hf hnmp
    by_cases h32 : 32 ≤ s.length
    · obtain ⟨f, rfl⟩ : ∃ f, fuel = f + 1 := by
        cases fuel with
        | zero => omega
        | succ f => exact ⟨f, rfl⟩
      cases s with
      | nil => simp at h32
      | cons b rest =>
        by_cases hb : b = 0x42
        · subst hb
          cases rest with
          | nil => simp at h32
          | cons b2 rest2 =>
            have hb2 : b2 ≠ 0x4D := by
              intro hcontra
              subst hcontra
              have h30 : 30 ≤ rest2.length := by simpa using h32
              simp [noFullMarkerPair, h30] at hnmp
            rw [readPMSloop_step_nomark f b2 rest2 out h32 hb2]
            exact ih (b2 :: rest2) out f (by simpa using hn) (by simpa using hf)
              (noFullMarkerPair_tail hnmp)
        · rw [readPMSloop_step_skip f b rest out h32 hb]
          exact ih rest out f (by simp at hn; omega) (by simp at hf; omega)
            (noFullMarkerPair_tail hnmp)
    · exact ⟨s, readPMSloop_small s out h32 fuel⟩

/-! ### Helper lemmas about the AQI computation -/

lemma roundQ_mono {x y : ℚ} (h : x ≤ y) : round x ≤ round y := by
  rw [round_eq, round_eq]
  exact Int.floor_le_floor (by linarith)

lemma computeAQI_eq_round_aqiRaw (C : ℚ) : computeAQI_PM25_US C = round (aqiRaw C) := by
  unfold computeAQI_PM25_US interpAQI aqiRaw
  split_ifs
  all_goals
    first
      | (rw [show ((500 : ℚ)) = ((500 : ℤ) : ℚ) by norm_num, round_intCast])
      | (congr 1 <;> push_cast <;> try ring)

set_option maxHeartbeats 1000000 in
lemma aqiRaw_mono : ∀ c1 c2 : ℚ, c1 ≤ c2 → aqiRaw c1 ≤ aqiRaw c2 := by
  intro c1 c2 h
  unfold aqiRaw
  split_ifs <;> (try norm_num at *) <;> try linarith

lemma aqiRaw_zero : aqiRaw 0 = 0 := by norm_num [aqiRaw]

lemma aqiRaw_top : aqiRaw 500.4 = 500 := by norm_num [aqiRaw]

/-! ### Helper lemmas for the variant comparison -/

lemma http_decodeFrame_eq : Http.decodeFrame = decodeFrame := rfl

lemma http_pmsSum_eq : Http.pmsSum = pmsSum := rfl

lemma http_readPMSloop_eq :
    ∀ fuel s out, Http.readPMSloop fuel s out = readPMSloop fuel s out := by
  intro fuel
  induction fuel with
  | zero => intro s out; rfl
  | succ f ih =>
    intro s out
    simp only [Http.readPMSloop, readPMSloop, http_decodeFrame_eq, http_pmsSum_eq, ih]

/-! ### Claim theorems -/

/-- C1: the claim asserts that a stream of garbage, the marker bytes,
and a well-formed 30-byte body with a correct transmitted checksum is
decoded into the fifteen big-endian fields at body offsets 0,2,...,28.
The code instead decodes at offsets 2,4,...,30: for field 14 it reads
`buffer[30]` and `buffer[31]`, two bytes past the 30-byte body buffer
(undefined behavior), and compares the computed sum against that
out-of-bounds word rather than against body bytes 28,29.  Concretely:
`goodBody` has its correct checksum 256 at offsets 28,29, yet the strict
embedding reaches the out-of-range branch, and the machine-level
embedding (with zero bytes past the buffer) returns `false` instead of
the specified reading. -/
theorem wellformed_frame_decode_hits_out_of_bounds :
    pmsSum 0x42 0x4D goodBody = goodBody.getD 28 0 * 256 + goodBody.getD 29 0 ∧
    readPMSdata (0x13 :: 0x42 :: 0x4D :: goodBody) priorRecord = PmsOutcome.oob [] ∧
    (readPMSdataExt 0 0 (0x13 :: 0x42 :: 0x4D :: goodBody) priorRecord).1 = false := by
  decide

/-- C2 (counterexample): on a frame whose transmitted checksum (body
bytes 28,29 of `corruptBody`, value 2313) differs from the computed sum
(256), the decoder does return `false`, but the stored record is NOT
preserved — the `memcpy` before the checksum comparison overwrites it —
and the publish step reports the pm2.5 field as 0 although the prior
reading had pm2.5 = 3.  This refutes the claim as stated. -/
theorem checksum_mismatch_claim_counterexample :
    corruptBody.getD 28 0 * 256 + corruptBody.getD 29 0 ≠ pmsSum 0x42 0x4D corruptBody ∧
    (readPMSdataExt 0 0 (0x42 :: 0x4D :: corruptBody) priorRecord).1 = false ∧
    (readPMSdataExt 0 0 (0x42 :: 0x4D :: corruptBody) priorRecord).2.1 ≠ priorRecord ∧
    priorRecord.pm25_standard ≠ 0 ∧
    publishedPM25 false (readPMSdataExt 0 0 (0x42 :: 0x4D :: corruptBody) priorRecord).2.1
      = 0 := by
  decide

/-- C2 (amended): when the checksum comparison fails on a marker-plus-
30-byte-body stream, the decoder returns `false`, but the caller's
record is overwritten with the frame fields decoded at body offsets
2..31 (the last field holding the two bytes past the buffer), and the
publish step then reports the PM fields as 0 alongside `pms_ok = false`
instead of retaining the prior reading. -/
theorem checksum_mismatch_overwrites_and_publishes_zero
    (body : List Nat) (out : Pms5003data) (g30 g31 : Nat)
    (_hbytes : ∀ x ∈ body, x < 256) (hlen : body.length = 30)
    (hck : pmsSum 0x42 0x4D body ≠ (decodeFrameExt body g30 g31).checksum) :
    readPMSdataExt g30 g31 (0x42 :: 0x4D :: body) out
      = (false, decodeFrameExt body g30 g31, []) ∧
    publishedPM25 false (decodeFrameExt body g30 g31) = 0 := by
  have htake : body.take 30 = body := by
    rw [← hlen]; exact List.take_length body
  have hdrop : body.drop 30 = [] := List.drop_eq_nil_of_le (by omega)
  constructor
  · unfold readPMSdataExt
    rw [show (0x42 :: 0x4D :: body).length = 30 + 2 by simp [hlen]]
    show readPMSloopExt g30 g31 (31 + 1) (0x42 :: 0x4D :: body) out = _
    rw [readPMSloopExt]
    simp only [List.length_cons, hlen, htake, hdrop]
    rw [if_pos trivial, if_pos trivial, if_neg hck]
    show readPMSloopExt g30 g31 (30 + 1) [] (decodeFrameExt body g30 g31) = _
    rw [readPMSloopExt]
    simp
  · rfl

/-- C2 (witness): the amended theorem applied to the concrete corrupted
frame `corruptBody` with zero bytes past the buffer. -/
theorem checksum_mismatch_overwrites_witness :
    readPMSdataExt 0 0 (0x42 :: 0x4D :: corruptBody) priorRecord
      = (false, decodeFrameExt corruptBody 0 0, []) ∧
    publishedPM25 false (decodeFrameExt corruptBody 0 0) = 0 :=
  checksum_mismatch_overwrites_and_publishes_zero corruptBody priorRecord 0 0
    (by decide) (by decide) (by decide)

/-- C3: the actuator output is a pure function of `(mode, hazard)` with
`hazard = (aqiIndex > 150) OR (co2 above threshold)`: in Auto the
buzzer equals the hazard, `Override(On)` forces it on, `Override(Off)`
forces it off, and in every mode the red indicator equals the hazard
and the green indicator its negation; identical inputs always yield
identical outputs.  (ActuationController is modelled from the spec: no
actuator code exists under `src/`.) -/
theorem actuator_pure_function_of_mode_hazard :
    (∀ (aqiIndex : ℤ) (co2ppm threshold : ℚ),
        hazardPred aqiIndex co2ppm threshold
          = (decide (150 < aqiIndex) || decide (threshold < co2ppm))) ∧
    (∀ h : Bool, actuatorOutput ControlMode.auto h = ⟨h, h, !h⟩) ∧
    (∀ h : Bool,
        actuatorOutput (ControlMode.override OverrideState.on) h = ⟨true, h, !h⟩) ∧
    (∀ h : Bool,
        actuatorOutput (ControlMode.override OverrideState.off) h = ⟨false, h, !h⟩) ∧
    (∀ (m : ControlMode) (h : Bool),
        (actuatorOutput m h).redIndicator = h ∧
        (actuatorOutput m h).greenIndicator = !h) ∧
    (∀ (m : ControlMode) (h : Bool), actuatorOutput m h = actuatorOutput m h) := by
  refine ⟨fun _ _ _ => rfl, fun _ => rfl, fun _ => rfl, fun _ => rfl, ?_, fun _ _ => rfl⟩
  intro m h
  cases m with
  | auto => exact ⟨rfl, rfl⟩
  | override st => cases st <;> exact ⟨rfl, rfl⟩

/-- C4 (counterexample): when the DHT read fails (NaN results) in a
cycle where the refresh branch is taken, the previously valid samples
(25 °C, 40 %) are overwritten by the failed read and the cycle skips
emission, refuting the claim that the last known-valid samples are
retained and that the cycle still emits. -/
theorem dht_failure_counterexample :
    (dhtRefresh ⟨some 25, some 40, 1000⟩ 4000 none none).lastTempC = none ∧
    (dhtRefresh ⟨some 25, some 40, 1000⟩ 4000 none none).lastTempC ≠ some 25 ∧
    cycleEmits (dhtRefresh ⟨some 25, some 40, 1000⟩ 4000 none none) = false := by
  decide

/-- C4 (amended): when the minimum inter-sample interval has not
elapsed and the stored samples are valid, the stored samples are reused
unchanged and the cycle emits its record; but when the refresh branch
is taken and the read fails (NaN results), the failed values overwrite
the stored samples and the cycle skips emission. -/
theorem dht_interval_retains_failure_skips
    (st : DhtState) (now : Nat) (rT rH : Option ℚ)
    (hvT : st.lastTempC.isSome = true) (hvH : st.lastHumid.isSome = true) :
    (now - st.lastDhtReadTime < 2200 →
        dhtRefresh st now rT rH = st ∧ cycleEmits st = true) ∧
    (2200 ≤ now - st.lastDhtReadTime →
        dhtRefresh st now rT rH = ⟨rT, rH, now⟩ ∧
        (rT = none → cycleEmits (dhtRefresh st now rT rH) = false)) := by
  have hT : st.lastTempC ≠ none := by
    cases hx : st.lastTempC with
    | none => rw [hx] at hvT; simp at hvT
    | some v => simp
  have hH : st.lastHumid ≠ none := by
    cases hx : st.lastHumid with
    | none => rw [hx] at hvH; simp at hvH
    | some v => simp
  constructor
  · intro hint
    constructor
    · unfold dhtRefresh
      rw [if_neg]
      push_neg
      exact ⟨by omega, hT, hH⟩
    · unfold cycleEmits
      rw [hvT, hvH]
      rfl
  · intro hint
    have hcond : 2200 ≤ now - st.lastDhtReadTime ∨ st.lastTempC = none ∨
        st.lastHumid = none := Or.inl hint
    constructor
    · unfold dhtRefresh
      rw [if_pos hcond]
    · intro hrT
      unfold dhtRefresh
      rw [if_pos hcond]
      subst hrT
      unfold cycleEmits
      rfl

/-- C4 (witness): the amended theorem at a concrete state: with valid
samples and an un-elapsed interval the state is kept and the cycle
emits; with an elapsed interval and a failed read the samples become
NaN and the cycle skips emission. -/
theorem dht_interval_retains_failure_skips_witness :
    (3000 - (2000 : Nat) < 2200 →
        dhtRefresh ⟨some 25, some 40, 2000⟩ 3000 none none = ⟨some 25, some 40, 2000⟩ ∧
        cycleEmits ⟨some 25, some 40, 2000⟩ = true) ∧
    (2200 ≤ 3000 - (2000 : Nat) →
        dhtRefresh ⟨some 25, some 40, 2000⟩ 3000 none none = ⟨none, none, 3000⟩ ∧
        (none = (none : Option ℚ) →
          cycleEmits (dhtRefresh ⟨some 25, some 40, 2000⟩ 3000 none none) = false)) :=
  dht_interval_retains_failure_skips ⟨some 25, some 40, 2000⟩ 3000 none none rfl rfl

/-- C5: for every concentration `C ≥ 0`, `computeAQI_PM25_US C` equals
the US EPA seven-band breakpoint mapping `aqiSpecMap`: the first band of
the table with `C ≤ Chigh` determines the result by linear
interpolation rounded to the nearest integer, and every `C` above 500.4
yields exactly 500. -/
theorem computeAQI_matches_epa_table (C : ℚ) (hC : 0 ≤ C) :
    computeAQI_PM25_US C = aqiSpecMap C ∧
    (500.4 < C → computeAQI_PM25_US C = 500) := by
  constructor
  · unfold aqiSpecMap aqiTable
    unfold computeAQI_PM25_US interpAQI
    by_cases h1 : C ≤ 12
    · simp [List.find?, h1]
      congr 1
      ring
    · by_cases h2 : C ≤ 35.4
      · simp [List.find?, h1, h2]
        congr 1
        ring
      · by_cases h3 : C ≤ 55.4
        · simp [List.find?, h1, h2, h3]
          congr 1
          ring
        · by_cases h4 : C ≤ 150.4
          · simp [List.find?, h1, h2, h3, h4]
            congr 1
            ring
          · by_cases h5 : C ≤ 250.4
            · simp [List.find?, h1, h2, h3, h4, h5]
              congr 1
              ring
            · by_cases h6 : C ≤ 350.4
              · simp [List.find?, h1, h2, h3, h4, h5, h6]
                congr 1
                ring
              · by_cases h7 : C ≤ 500.4
                · simp [List.find?, h1, h2, h3, h4, h5, h6, h7]
                  congr 1
                  ring
                · simp [List.find?, h1, h2, h3, h4, h5, h6, h7]
  · intro hcap
    unfold computeAQI_PM25_US
    split_ifs <;> (try norm_num at *) <;> try linarith

/-- C5 (witness): the table equality evaluated at the concrete
concentration 35 (and the saturation conjunct at 600 through the same
theorem). -/
theorem computeAQI_matches_epa_table_witness :
    (computeAQI_PM25_US 35 = aqiSpecMap 35 ∧
      ((500.4 : ℚ) < 35 → computeAQI_PM25_US 35 = 500)) ∧
    computeAQI_PM25_US 600 = 500 :=
  ⟨computeAQI_matches_epa_table 35 (by norm_num),
   (computeAQI_matches_epa_table 600 (by norm_num)).2 (by norm_num)⟩

/-- C6: `computeAQI_PM25_US` is monotonically non-decreasing on
concentrations `≥ 0`, its value lies in `[0, 500]` for every `C ≥ 0`,
and `computeAQI_PM25_US 0 = 0` and `computeAQI_PM25_US 500.4 = 500`. -/
theorem computeAQI_monotone_bounded :
    (∀ c1 c2 : ℚ, 0 ≤ c1 → c1 ≤ c2 → computeAQI_PM25_US c1 ≤ computeAQI_PM25_US c2) ∧
    (∀ C : ℚ, 0 ≤ C → 0 ≤ computeAQI_PM25_US C ∧ computeAQI_PM25_US C ≤ 500) ∧
    computeAQI_PM25_US 0 = 0 ∧
    computeAQI_PM25_US 500.4 = 500 := by
  have hmono : ∀ c1 c2 : ℚ, c1 ≤ c2 → computeAQI_PM25_US c1 ≤ computeAQI_PM25_US c2 := by
    intro c1 c2 h12
    rw [computeAQI_eq_round_aqiRaw, computeAQI_eq_round_aqiRaw]
    exact roundQ_mono (aqiRaw_mono c1 c2 h12)
  have hzero : computeAQI_PM25_US 0 = 0 := by
    rw [computeAQI_eq_round_aqiRaw, aqiRaw_zero, round_zero]
  have htop : computeAQI_PM25_US 500.4 = 500 := by
    rw [computeAQI_eq_round_aqiRaw, aqiRaw_top,
      show ((500 : ℚ)) = ((500 : ℤ) : ℚ) by norm_num, round_intCast]
  refine ⟨fun c1 c2 _ h12 => hmono c1 c2 h12, ?_, hzero, htop⟩
  intro C hC
  constructor
  · have h0 := hmono 0 C hC
    rw [hzero] at h0
    exact h0
  · by_cases hcap : C ≤ 500.4
    · have hc := hmono C 500.4 hcap
      rw [htop] at hc
      exact hc
    · unfold computeAQI_PM25_US
      split_ifs <;> (try norm_num at *) <;> try linarith

/-- C6 (witness): monotonicity applied at 10 ≤ 40 and the range bound
at 35. -/
theorem computeAQI_monotone_bounded_witness :
    computeAQI_PM25_US 10 ≤ computeAQI_PM25_US 40 ∧
    (0 ≤ computeAQI_PM25_US 35 ∧ computeAQI_PM25_US 35 ≤ 500) :=
  ⟨computeAQI_monotone_bounded.1 10 40 (by norm_num) (by norm_num),
   computeAQI_monotone_bounded.2.1 35 (by norm_num)⟩

/-- C7: when the decoder has consumed a candidate first marker byte 0x42
and the next byte `b` is not 0x4D, the call behaves exactly as a call on
the stream starting at `b`: the failed second-marker check consumes only
the 0x42, and `b` itself is re-examined as a candidate first marker, so
a false positive never skips two bytes. -/
theorem marker_mismatch_reexamines_same_byte (b : Nat) (t : List Nat) (out : Pms5003data)
    (_hbytes : ∀ x ∈ 0x42 :: b :: t, x < 256)
    (hb : b ≠ 0x4D) (hlen : 32 ≤ (0x42 :: b :: t).length) :
    readPMSdata (0x42 :: b :: t) out = readPMSdata (b :: t) out := by
  unfold readPMSdata
  rw [show (0x42 :: b :: t).length = (b :: t).length + 1 by simp]
  exact readPMSloop_step_nomark (b :: t).length b t out (by simpa using hlen) hb

/-- C7 (witness): a 0x42 followed by another 0x42 (not 0x4D): the call
equals the call on the stream starting at the second 0x42. -/
theorem marker_mismatch_reexamines_witness :
    readPMSdata (0x42 :: 0x42 :: List.replicate 30 0) priorRecord
      = readPMSdata (0x42 :: List.replicate 30 0) priorRecord :=
  marker_mismatch_reexamines_same_byte 0x42 (List.replicate 30 0) priorRecord
    (by decide) (by decide) (by decide)

/-- C8: on any finite stream with no marker pair followed by a full
30-byte body, the decoder returns `false` with the caller's record
unchanged, and the scan terminates within `s.length` iterations: any
fuel of at least the stream length gives the same result, so the total
scan work is bounded by the stream length and no state loops forever. -/
theorem no_marker_pair_returns_false_bounded (s : List Nat) (out : Pms5003data)
    (_hbytes : ∀ x ∈ s, x < 256) (hnmp : noFullMarkerPair s = true) :
    (∃ rest, readPMSdata s out = PmsOutcome.ret false out rest) ∧
    (∀ fuel, s.length ≤ fuel → readPMSloop fuel s out = readPMSdata s out) := by
  constructor
  · exact nmp_loop s.length s out s.length le_rfl le_rfl hnmp
  · intro fuel hfuel
    exact readPMSloop_fuel_congr s.length s out fuel le_rfl hfuel

/-- C8 (witness): a 40-byte stream of the byte 7 (no marker pair): the
decoder returns `false` with the record unchanged and is fuel
insensitive above the stream length. -/
theorem no_marker_pair_witness :
    (∃ rest, readPMSdata (List.replicate 40 7) priorRecord
        = PmsOutcome.ret false priorRecord rest) ∧
    (∀ fuel, (List.replicate 40 7 : List Nat).length ≤ fuel →
        readPMSloop fuel (List.replicate 40 7) priorRecord
          = readPMSdata (List.replicate 40 7) priorRecord) :=
  no_marker_pair_returns_false_bounded (List.replicate 40 7) priorRecord
    (by decide) (by decide)

/-- C9: the claim asserts every access `buffer[2 + i*2]` and
`buffer[2 + i*2 + 1]` for `i` in 0..14 stays within the 30-byte body
buffer (index at most 29).  It is false: for `i = 14` the accesses are
at indices 30 and 31, so on a concrete in-range input — a marker pair
followed by a 30-byte body of zeros — the embedded total decoder
reaches the out-of-range (`none`) branch. -/
theorem decode_loop_reads_past_buffer :
    (List.replicate 30 (0 : Nat)).length = 30 ∧
    beAt (List.replicate 30 0) 14 = none ∧
    decodeFrame (List.replicate 30 0) = none ∧
    readPMSdata (0x42 :: 0x4D :: List.replicate 30 0) priorRecord
      = PmsOutcome.oob [] := by
  decide

/-- C10: the frame decoder and the derived-metric functions of the MQTT
variant and the HTTPS variant are extensionally equal: `readPMSdata`
(hence also its stream consumption, recorded in the outcome), `dewPoint`,
`computeHeatIndex`, `computeAQI_PM25_US` and `getAQICategory` agree on
every input. -/
theorem mqtt_http_variants_extensionally_equal :
    Http.readPMSdata = readPMSdata ∧
    Http.dewPoint = dewPoint ∧
    Http.computeHeatIndex = computeHeatIndex ∧
    Http.computeAQI_PM25_US = computeAQI_PM25_US ∧
    Http.getAQICategory = getAQICategory := by
  refine ⟨?_, rfl, rfl, rfl, rfl⟩
  funext s out
  unfold Http.readPMSdata readPMSdata
  exact http_readPMSloop_eq s.length s out
